import Mathlib

/-!
Shallow embedding of the core simulation logic of `src/pr.py`
(Recycling Sorter: falling labeled items are dragged into category
bins; correct placements score and build a streak, wrong placements
and misses cost lives, timed levels escalate until game over).

Conventions of the embedding:
* Python floats are modelled as exact rationals (`ℚ`); the literal
  `0.02` of `Item.update` becomes `2 / 100`, `3.5` becomes `7 / 2`.
* Python ints are `ℤ` (or `ℕ` for the always-nonnegative counters
  `streak`, `level`, `frames_since_spawn`).
* `pygame.Rect` is a quadruple of integers; `int(x)` in `Item.rect`
  truncates toward zero, which is `Int.div` on numerator/denominator.
* The high-score file is an `Option ℤ` (`none` = absent/corrupt file,
  `some n` = file holding `n`); `save_hiscore` replaces it, and the
  silent `try/except` swallowing of I/O errors is modelled as the
  write always succeeding.
* Rendering, fonts, the background surface and audio playback have no
  observable effect on the modelled state; `play_sfx` is omitted and
  the `muted` flag is kept as plain data toggled by the M key.
* Randomness (`spawn_item`, `rot_speed`) is modelled by passing the
  drawn values in explicitly (`SpawnData`).
* CPython list mutation during iteration (`update`'s miss scan and
  `items.remove` in `handle_mouse_up`) is modelled functionally; the
  resulting list value is the same, with `List.erase` playing the role
  of `list.remove` (first element equal to the argument is dropped).
-/

attribute [local semireducible] Rat.add Rat.mul Rat.inv Rat.sub

namespace RecyclingSorter

/-- Config constants from the top of `src/pr.py`. -/
def SCREEN_W : ℤ := 1000

def SCREEN_H : ℤ := 650

def C_PAPER : ℤ × ℤ × ℤ := (59, 130, 246)

def C_PLASTIC : ℤ × ℤ × ℤ := (239, 68, 68)

def C_METAL : ℤ × ℤ × ℤ := (161, 161, 170)

def C_ORGANIC : ℤ × ℤ × ℤ := (34, 197, 94)

def C_EWASTE : ℤ × ℤ × ℤ := (147, 51, 234)

/-- `BINS`: the fixed bin labels with their colors, in source order. -/
def BINS : List (String × (ℤ × ℤ × ℤ)) :=
  [("Paper", C_PAPER), ("Plastic", C_PLASTIC), ("Metal", C_METAL),
   ("Organic", C_ORGANIC), ("E-Waste", C_EWASTE)]

/-- One entry of the `LEVELS` table:
`(fall_speed, spawn_interval_frames, level_duration_seconds, target_score)`. -/
structure LevelDef where
  fall_speed : ℚ
  spawn_interval : ℕ
  level_secs : ℚ
  target : ℤ
deriving DecidableEq, Repr

/-- The `LEVELS` table of `src/pr.py`. -/
def LEVELS : List LevelDef :=
  [⟨24 / 10, 75, 50, 200⟩, ⟨3, 65, 55, 450⟩, ⟨36 / 10, 58, 60, 800⟩,
   ⟨42 / 10, 52, 60, 1200⟩, ⟨48 / 10, 46, 65, 1700⟩]

/-- Out-of-range default for `LEVELS` indexing.  In Python an index past
the end raises; in every state the game reaches, `level` stays below
`LEVELS.length`, so the default is never consulted there. -/
def defaultLevel : LevelDef := ⟨0, 0, 0, 0⟩

def LIVES_START : ℤ := 3

/-- `load_hiscore`: read the store, defaulting to 0 on absent/corrupt. -/
def load_hiscore : Option ℤ → ℤ
  | some n => n
  | none => 0

/-- `save_hiscore`: overwrite the store with a single scalar. -/
def save_hiscore (score : ℤ) (_ : Option ℤ) : Option ℤ :=
  some score

/-- An integer rectangle standing for `pygame.Rect`. -/
structure Rect where
  x : ℤ
  y : ℤ
  w : ℤ
  h : ℤ
deriving DecidableEq, Repr

/-- Python `int()` truncation toward zero of a rational. -/
def pyInt (q : ℚ) : ℤ :=
  q.num.tdiv (q.den : ℤ)

/-- `pygame.Rect.collidepoint`: left/top edges inclusive,
right/bottom exclusive. -/
def Rect.collidepoint (r : Rect) (px py : ℤ) : Bool :=
  decide (r.x ≤ px ∧ px < r.x + r.w ∧ r.y ≤ py ∧ py < r.y + r.h)

/-- `pygame.Rect.colliderect`: any non-zero axis-aligned overlap
(strict inequalities, so mere edge contact does not count). -/
def Rect.colliderect (a b : Rect) : Bool :=
  decide (a.x < b.x + b.w ∧ b.x < a.x + a.w ∧ a.y < b.y + b.h ∧ b.y < a.y + a.h)

/-- The `Item` dataclass of `src/pr.py` (a falling object). -/
structure Item where
  name : String
  category : String
  tip : String
  x : ℚ
  y : ℚ
  vx : ℚ
  vy : ℚ
  color : ℤ × ℤ × ℤ
  w : ℤ := 120
  h : ℤ := 40
  dragging : Bool := false
  grabbed_dx : ℚ := 0
  grabbed_dy : ℚ := 0
  rot : ℚ := 0
  rot_speed : ℚ := 0
deriving DecidableEq, Repr

/-- `Item.rect`. -/
def Item.rect (it : Item) : Rect :=
  ⟨pyInt it.x, pyInt it.y, it.w, it.h⟩

/-- `Item.update(gravity)`: kinematics are skipped entirely while
dragging; otherwise `vy += gravity * 0.02`, then position moves by the
(updated) velocity and the wobble angle advances. -/
def Item.update (it : Item) (gravity : ℚ) : Item :=
  if it.dragging then it
  else
    { it with
      vy := it.vy + gravity * (2 / 100)
      x := it.x + it.vx
      y := it.y + (it.vy + gravity * (2 / 100))
      rot := it.rot + it.rot_speed }

/-- The `Bin` dataclass (receptacle). -/
structure Bin where
  label : String
  color : ℤ × ℤ × ℤ
  rect : Rect
deriving DecidableEq, Repr

/-- The bin layout built in `Game.reset`: evenly spaced across the
bottom, in `BINS` order (`//` is floor division on positive ints, which
agrees with `Int` division here). -/
def bins : List Bin :=
  (List.range BINS.length).map (fun i =>
    let margin : ℤ := 20
    let bin_w : ℤ := (SCREEN_W - margin * ((BINS.length : ℤ) + 1)) / (BINS.length : ℤ)
    let bin_h : ℤ := 110
    let p := BINS.getD i ("", (0, 0, 0))
    { label := p.1
      color := p.2
      rect := ⟨margin + (i : ℤ) * (bin_w + margin), SCREEN_H - bin_h - 20, bin_w, bin_h⟩ })

/-- The four states of the `Game.state` string field. -/
inductive GState where
  | MENU
  | PLAYING
  | PAUSE
  | GAMEOVER
deriving DecidableEq, Repr

/-- The mutable fields of the `Game` object that the core logic reads
and writes (rendering caches, fonts and sounds are omitted). -/
structure Game where
  items : List Item
  score : ℤ
  hiscore : ℤ
  lives : ℤ
  level : ℕ
  level_time_left : ℚ
  level_target : ℤ
  frames_since_spawn : ℕ
  streak : ℕ
  tip_message : String
  tip_timer : ℚ
  state : GState
  muted : Bool
deriving DecidableEq, Repr

/-- A game together with the persistent high-score store. -/
structure World where
  g : Game
  store : Option ℤ
deriving DecidableEq, Repr

/-- `Game.reset(full)`: fresh round state.  `muted` is set in
`__init__`, not in `reset`, so it is threaded through unchanged. -/
def reset (full : Bool) (store : Option ℤ) (muted : Bool) : Game :=
  { items := []
    score := 0
    hiscore := load_hiscore store
    lives := LIVES_START
    level := 0
    level_time_left := (LEVELS.getD 0 defaultLevel).level_secs
    level_target := (LEVELS.getD 0 defaultLevel).target
    frames_since_spawn := 0
    streak := 0
    tip_message := ""
    tip_timer := 0
    state := if full then GState.MENU else GState.PLAYING
    muted := muted }

/-- A fresh session: `Game.__init__` sets `muted = False` and calls
`reset(full=True)`. -/
def initWorld (store : Option ℤ) : World :=
  { g := reset true store false, store := store }

/-- `Game.game_over`: enter GAMEOVER and persist a strictly higher
score. -/
def game_over (w : World) : World :=
  let g := { w.g with state := GState.GAMEOVER }
  if w.g.score > w.g.hiscore then
    { g := { g with hiscore := w.g.score }, store := save_hiscore w.g.score w.store }
  else
    { w with g := g }

/-- `Game.register_miss(reason)` (the reason string is unused in the
source body as well). -/
def register_miss (_reason : String) (w : World) : World :=
  let g := { w.g with streak := 0, lives := w.g.lives - 1 }
  if g.lives ≤ 0 then game_over { w with g := g } else { w with g := g }

/-- `Game.register_hit(correct, tip)`. -/
def register_hit (correct : Bool) (tip : String) (w : World) : World :=
  if correct then
    { w with g :=
      { w.g with
        streak := w.g.streak + 1
        score := w.g.score + 50 + ((min (5 * (w.g.streak + 1)) 150 : ℕ) : ℤ)
        tip_message := tip
        tip_timer := 7 / 2 } }
  else
    let w1 := register_miss "Wrong bin! -1 life." w
    { w1 with g := { w1.g with tip_message := tip, tip_timer := 7 / 2 } }

/-- The values drawn by `random` inside `spawn_item` and the item
fields copied from the `ITEMS` catalog, passed in explicitly. -/
structure SpawnData where
  name : String
  category : String
  tip : String
  x : ℚ
  vx : ℚ
  vy : ℚ
  rot_speed : ℚ
deriving DecidableEq, Repr

/-- The category → color dict lookup of `spawn_item` (total here; the
junk default is never hit for catalog categories). -/
def colorOf (c : String) : ℤ × ℤ × ℤ :=
  if c = "Paper" then C_PAPER
  else if c = "Plastic" then C_PLASTIC
  else if c = "Metal" then C_METAL
  else if c = "Organic" then C_ORGANIC
  else if c = "E-Waste" then C_EWASTE
  else (0, 0, 0)

/-- `Game.spawn_item`: append a fresh item at `y = -50`. -/
def spawn_item (sp : SpawnData) (g : Game) : Game :=
  { g with items := g.items ++
      [{ name := sp.name
         category := sp.category
         tip := sp.tip
         x := sp.x
         y := -50
         vx := sp.vx
         vy := sp.vy
         color := colorOf sp.category
         rot_speed := sp.rot_speed }] }

/-- The per-item scan of `Game.update`: advance each item's kinematics
in list order; an item past the bottom (`y > SCREEN_H + 60`) is dropped
from the list and registers a miss immediately (the scan continues
regardless of any game-over triggered mid-scan). -/
def missScan (fall : ℚ) : List Item → World → List Item × World
  | [], w => ([], w)
  | it :: rest, w =>
    let it2 := it.update fall
    if ((SCREEN_H : ℚ) + 60) < it2.y then
      missScan fall rest (register_miss "Item fell off screen" w)
    else
      let r := missScan fall rest w
      (it2 :: r.1, r.2)

/-- The tip-timer countdown step of `Game.update`. -/
def tipStep (dt : ℚ) (g : Game) : Game :=
  if 0 < g.tip_timer then
    if g.tip_timer - dt ≤ 0 then
      { g with tip_timer := g.tip_timer - dt, tip_message := "" }
    else
      { g with tip_timer := g.tip_timer - dt }
  else g

/-- The level-timer step of `Game.update`: count down; on expiry either
advance (target met with `≥` and a next level exists) or game over. -/
def levelStep (dt : ℚ) (w : World) : World :=
  let g := { w.g with level_time_left := w.g.level_time_left - dt }
  if g.level_time_left ≤ 0 then
    if g.score ≥ g.level_target ∧ g.level < LEVELS.length - 1 then
      let L := LEVELS.getD (g.level + 1) defaultLevel
      { w with g :=
        { g with
          level := g.level + 1
          level_time_left := L.level_secs
          level_target := L.target
          tip_message := "Level up! Level " ++ toString (g.level + 1 + 1)
          tip_timer := 3 } }
    else
      game_over { w with g := g }
  else
    { w with g := g }

/-- `Game.update(dt)`: no-op unless PLAYING; otherwise spawn scheduling,
the item/miss scan, the tip timer, then the level timer, in source
order.  The newly spawned item (if any) is in the list for this tick's
scan, exactly as in the source. -/
def update (dt : ℚ) (sp : SpawnData) (w : World) : World :=
  if w.g.state = GState.PLAYING then
    let L := LEVELS.getD w.g.level defaultLevel
    let g1 :=
      if w.g.frames_since_spawn + 1 ≥ L.spawn_interval then
        spawn_item sp { w.g with frames_since_spawn := 0 }
      else
        { w.g with frames_since_spawn := w.g.frames_since_spawn + 1 }
    let r := missScan L.fall_speed g1.items { g := g1, store := w.store }
    let w2 : World := { g := { r.2.g with items := r.1 }, store := r.2.store }
    levelStep dt { w2 with g := tipStep dt w2.g }
  else w

/-- The body of `handle_mouse_down`'s reversed scan: set `dragging` and
capture the grab offset on the first point-hit item, touching no
others. -/
def grabAt (px py : ℤ) : List Item → List Item
  | [] => []
  | it :: rest =>
    if it.rect.collidepoint px py then
      { it with
        dragging := true
        grabbed_dx := it.x - (px : ℚ)
        grabbed_dy := it.y - (py : ℚ) } :: rest
    else
      it :: grabAt px py rest

/-- `Game.handle_mouse_down(pos)`: scan `reversed(items)` (so the
most-recently-spawned item is examined first) and grab the first hit.
The in-place mutation of the Python loop keeps list order; the double
reverse reproduces that. -/
def handle_mouse_down (pos : ℤ × ℤ) (w : World) : World :=
  if w.g.state = GState.PLAYING then
    { w with g := { w.g with items := (grabAt pos.1 pos.2 w.g.items.reverse).reverse } }
  else w

/-- Clear the `dragging` flag of the first dragging item. -/
def undragFirst : List Item → List Item
  | [] => []
  | it :: rest =>
    if it.dragging then { it with dragging := false } :: rest
    else it :: undragFirst rest

/-- `Game.handle_mouse_up(pos)`: the release position itself is unused
in the source.  The first dragging item is un-dragged; bins are then
tested in `bins` order and the first overlapping one wins: the item is
removed (`list.remove` = first equal element) and the hit is scored
with `correct = (category == label)`.  With no overlapping bin the item
just stays in play un-dragged.  With nothing dragging this is a no-op. -/
def handle_mouse_up (_pos : ℤ × ℤ) (w : World) : World :=
  if w.g.state = GState.PLAYING then
    match w.g.items.find? (fun it => it.dragging) with
    | none => w
    | some d =>
      let it2 := { d with dragging := false }
      let L := undragFirst w.g.items
      match bins.find? (fun b => b.rect.colliderect it2.rect) with
      | none => { w with g := { w.g with items := L } }
      | some b =>
        let correct := it2.category == b.label
        let tip :=
          if correct then "OK " ++ it2.name ++ ": " ++ it2.tip
          else "X " ++ it2.name ++ " goes in " ++ it2.category ++ " bin."
        register_hit correct tip { w with g := { w.g with items := L.erase it2 } }
  else w

/-- `Game.handle_mouse_motion(pos)`: every dragging item snaps to the
pointer plus its captured grab offset and has its velocity zeroed. -/
def handle_mouse_motion (pos : ℤ × ℤ) (w : World) : World :=
  if w.g.state = GState.PLAYING then
    { w with g := { w.g with items := w.g.items.map (fun it =>
        if it.dragging then
          { it with
            x := (pos.1 : ℚ) + it.grabbed_dx
            y := (pos.2 : ℚ) + it.grabbed_dy
            vx := 0
            vy := 0 }
        else it) } }
  else w

/-- One discrete occurrence the `Game.run` loop dispatches on: a frame
tick (with the values randomness would draw for a spawn) or an input
event. -/
inductive Ev where
  | tick (dt : ℚ) (sp : SpawnData)
  | down (pos : ℤ × ℤ)
  | up (pos : ℤ × ℤ)
  | motion (pos : ℤ × ℤ)
  | keyStart
  | keyP
  | keyM
  | keyR

/-- The event dispatch of `Game.run` (SPACE starts from MENU, P toggles
PLAYING/PAUSE, M toggles mute, R restarts from GAMEOVER via
`reset(full=False)` followed by `state = "PLAYING"`). -/
def stepEv : Ev → World → World
  | Ev.tick dt sp, w => update dt sp w
  | Ev.down p, w => handle_mouse_down p w
  | Ev.up p, w => handle_mouse_up p w
  | Ev.motion p, w => handle_mouse_motion p w
  | Ev.keyStart, w =>
    if w.g.state = GState.MENU then { w with g := { w.g with state := GState.PLAYING } } else w
  | Ev.keyP, w =>
    if w.g.state = GState.PLAYING then { w with g := { w.g with state := GState.PAUSE } }
    else if w.g.state = GState.PAUSE then { w with g := { w.g with state := GState.PLAYING } }
    else w
  | Ev.keyM, w => { w with g := { w.g with muted := !w.g.muted } }
  | Ev.keyR, w =>
    if w.g.state = GState.GAMEOVER then
      { g := { reset false w.store w.g.muted with state := GState.PLAYING }, store := w.store }
    else w

/-- Run a list of events/ticks in order. -/
def runEvents : List Ev → World → World
  | [], w => w
  | e :: es, w => runEvents es (stepEv e w)

/-- States reachable from a fresh session by some sequence of input
events and ticks. -/
inductive Reach : World → Prop
  | init (store : Option ℤ) : Reach (initWorld store)
  | step (e : Ev) {w : World} : Reach w → Reach (stepEv e w)

/-- How many items are currently flagged as dragging. -/
def dragCount (g : Game) : ℕ :=
  g.items.countP (fun it => it.dragging)

/-! ### Concrete scenario data

Items below are drawn from the `ITEMS` catalog of `src/pr.py`
("Battery" → E-Waste with tip "Never bin batteries!", "Bottle" →
Plastic, "Can" → Metal, "Phone" → E-Waste). -/

/-- Spawn draw for a "Can" (Metal) at x = 500, falling at `vy = 1/2`. -/
def spawnCan : SpawnData :=
  ⟨"Can", "Metal", "Rinse before recycling.", 500, 0, 1 / 2, 0⟩

/-- Spawn draw for a "Phone" (E-Waste) at x = 200, falling at `vy = 1/2`. -/
def spawnPhone : SpawnData :=
  ⟨"Phone", "E-Waste", "Take to e-waste drop-off.", 200, 0, 1 / 2, 0⟩

/-- A fresh session after the start key: score 0, streak 0, 3 lives. -/
def freshPlaying : World :=
  { g := { reset true none false with state := GState.PLAYING }, store := none }

/-- A dragged "Battery" held over the E-Waste bin (bin x-range
[804, 980), y-range [520, 630); the item covers [820, 940) × [530, 570)). -/
def batteryItem : Item :=
  { name := "Battery", category := "E-Waste", tip := "Never bin batteries!",
    x := 820, y := 530, vx := 0, vy := 0, color := C_EWASTE, dragging := true }

/-- Fresh session currently dragging `batteryItem`. -/
def batteryWorld : World :=
  { g := { reset true none false with state := GState.PLAYING, items := [batteryItem] },
    store := none }

/-- The E-Waste bin as laid out by `reset` (last of the five). -/
def ewasteBin : Bin :=
  { label := "E-Waste", color := C_EWASTE, rect := ⟨804, 520, 176, 110⟩ }

/-- A dragged "Battery" held over the Paper bin (the wrong bin). -/
def wrongBinItem : Item :=
  { name := "Battery", category := "E-Waste", tip := "Never bin batteries!",
    x := 40, y := 530, vx := 0, vy := 0, color := C_EWASTE, dragging := true }

/-- One life left, dragging `wrongBinItem` over the Paper bin. -/
def oneLifeWorld : World :=
  { g := { reset true none false with
           state := GState.PLAYING
           lives := 1
           items := [wrongBinItem] }
    store := none }

/-- A "Bottle" falling with `vy = 3/2`, nowhere near a bin. -/
def bottleItem : Item :=
  { name := "Bottle", category := "Plastic", tip := "Empty and crush to save space.",
    x := 500, y := 100, vx := 0, vy := 3 / 2, color := C_PLASTIC }

/-- Fresh session with `bottleItem` in play. -/
def bottleWorld : World :=
  { g := { reset true none false with state := GState.PLAYING, items := [bottleItem] },
    store := none }

/-- A fresh level-0 session whose score sits exactly at the level
target of 200, with the full 50-second clock. -/
def levelExactWorld : World :=
  { g := { reset true none false with state := GState.PLAYING, score := 200 },
    store := none }

/-! ### Field-preservation lemmas for the scoring operations -/

lemma game_over_score (w : World) : (game_over w).g.score = w.g.score := by
  unfold game_over
  split <;> rfl

lemma game_over_lives (w : World) : (game_over w).g.lives = w.g.lives := by
  unfold game_over
  split <;> rfl

lemma game_over_streak (w : World) : (game_over w).g.streak = w.g.streak := by
  unfold game_over
  split <;> rfl

lemma game_over_state (w : World) : (game_over w).g.state = GState.GAMEOVER := by
  unfold game_over
  split <;> rfl

lemma game_over_level (w : World) : (game_over w).g.level = w.g.level := by
  unfold game_over
  split <;> rfl

lemma game_over_level_target (w : World) : (game_over w).g.level_target = w.g.level_target := by
  unfold game_over
  split <;> rfl

lemma game_over_level_time_left (w : World) :
    (game_over w).g.level_time_left = w.g.level_time_left := by
  unfold game_over
  split <;> rfl

lemma game_over_items (w : World) : (game_over w).g.items = w.g.items := by
  unfold game_over
  split <;> rfl

lemma register_miss_score (reason : String) (w : World) :
    (register_miss reason w).g.score = w.g.score := by
  simp only [register_miss]
  split
  · rw [game_over_score]
  · rfl

lemma register_miss_lives (reason : String) (w : World) :
    (register_miss reason w).g.lives = w.g.lives - 1 := by
  simp only [register_miss]
  split
  · rw [game_over_lives]
  · rfl

lemma register_miss_streak (reason : String) (w : World) :
    (register_miss reason w).g.streak = 0 := by
  simp only [register_miss]
  split
  · rw [game_over_streak]
  · rfl

lemma register_miss_state (reason : String) (w : World) :
    (register_miss reason w).g.state =
      (if w.g.lives - 1 ≤ 0 then GState.GAMEOVER else w.g.state) := by
  simp only [register_miss]
  split
  · rw [game_over_state]
  · rfl

lemma register_miss_level (reason : String) (w : World) :
    (register_miss reason w).g.level = w.g.level := by
  simp only [register_miss]
  split
  · rw [game_over_level]
  · rfl

lemma register_miss_level_target (reason : String) (w : World) :
    (register_miss reason w).g.level_target = w.g.level_target := by
  simp only [register_miss]
  split
  · rw [game_over_level_target]
  · rfl

lemma register_miss_level_time_left (reason : String) (w : World) :
    (register_miss reason w).g.level_time_left = w.g.level_time_left := by
  simp only [register_miss]
  split
  · rw [game_over_level_time_left]
  · rfl

lemma register_hit_false_streak (tip : String) (w : World) :
    (register_hit false tip w).g.streak = 0 := by
  simp [register_hit, register_miss_streak]

lemma register_hit_false_lives (tip : String) (w : World) :
    (register_hit false tip w).g.lives = w.g.lives - 1 := by
  simp [register_hit, register_miss_lives]

lemma register_hit_false_score (tip : String) (w : World) :
    (register_hit false tip w).g.score = w.g.score := by
  simp [register_hit, register_miss_score]

lemma register_hit_false_state (tip : String) (w : World) :
    (register_hit false tip w).g.state =
      (if w.g.lives - 1 ≤ 0 then GState.GAMEOVER else w.g.state) := by
  simp [register_hit, register_miss_state]

lemma register_hit_true_streak (tip : String) (w : World) :
    (register_hit true tip w).g.streak = w.g.streak + 1 := by
  simp [register_hit]

lemma register_hit_true_score (tip : String) (w : World) :
    (register_hit true tip w).g.score =
      w.g.score + 50 + ((min (5 * (w.g.streak + 1)) 150 : ℕ) : ℤ) := by
  simp [register_hit]

lemma register_hit_true_lives (tip : String) (w : World) :
    (register_hit true tip w).g.lives = w.g.lives := by
  simp [register_hit]

lemma register_miss_items (reason : String) (w : World) :
    (register_miss reason w).g.items = w.g.items := by
  simp only [register_miss]
  split
  · rw [game_over_items]
  · rfl

lemma register_hit_items (c : Bool) (tip : String) (w : World) :
    (register_hit c tip w).g.items = w.g.items := by
  cases c
  · simp [register_hit, register_miss_items]
  · simp [register_hit]

/-- The first item `find?` reports as dragging is, un-dragged, an
element of `undragFirst`. -/
lemma mem_undragFirst_of_find? :
    ∀ (l : List Item) (d : Item), l.find? (fun it => it.dragging) = some d →
      { d with dragging := false } ∈ undragFirst l := by
  intro l
  induction l with
  | nil => intro d h; simp at h
  | cons it rest ih =>
    intro d h
    by_cases hd : it.dragging
    · rw [List.find?_cons_of_pos _ hd] at h
      cases h
      simp [undragFirst, hd]
    · rw [List.find?_cons_of_neg _ (by simp [hd])] at h
      simp only [undragFirst, hd, if_false, Bool.false_eq_true]
      exact List.mem_cons_of_mem it (ih d h)

/-! ### Claim theorems -/

/-- C1: a correct placement increments the streak by 1 and adds exactly
`50 + min(5 * streak, 150)` to the score, computed with the incremented
streak; concretely, from a fresh session dropping a dragged "Battery" on
the E-Waste bin gives score 55 and streak 1, and three consecutive
correct drops give cumulative scores 55, 115, 180 (per-drop gains
55, 60, 65). -/
theorem correct_drop_scoring :
    (∀ (w : World) (tip : String),
      (register_hit true tip w).g.streak = w.g.streak + 1 ∧
      (register_hit true tip w).g.score =
        w.g.score + 50 + ((min (5 * (w.g.streak + 1)) 150 : ℕ) : ℤ)) ∧
    (handle_mouse_up (900, 560) batteryWorld).g.score = 55 ∧
    (handle_mouse_up (900, 560) batteryWorld).g.streak = 1 ∧
    (register_hit true "" freshPlaying).g.score = 55 ∧
    (register_hit true "" (register_hit true "" freshPlaying)).g.score = 115 ∧
    (register_hit true ""
      (register_hit true "" (register_hit true "" freshPlaying))).g.score = 180 := by
  exact ⟨fun w tip => ⟨register_hit_true_streak tip w, register_hit_true_score tip w⟩,
    by decide, by decide, by decide, by decide, by decide⟩

/-- C2 counterexample: from a fresh session (score 0, streak 0) a
correct drop yields score 55, not the 50 that the claim's
before-increment formula `50 + min(5 * 0, 150)` predicts. -/
theorem before_increment_bonus_refuted :
    (register_hit true "" freshPlaying).g.score = 55 ∧
    freshPlaying.g.score + 50 + ((min (5 * freshPlaying.g.streak) 150 : ℕ) : ℤ) = 50 ∧
    ¬ (register_hit true "" freshPlaying).g.score =
        freshPlaying.g.score + 50 + ((min (5 * freshPlaying.g.streak) 150 : ℕ) : ℤ) := by
  exact ⟨by decide, by decide, by decide⟩

/-- C2 amended: every correct drop strictly increases the score, by
exactly `50 + min(5 * streak, 150)` where `streak` is the value AFTER
the increment performed for that drop (so the first correct drop from
streak 0 adds 55, not 50). -/
theorem correct_drop_strict_increase :
    ∀ (w : World) (tip : String),
      (register_hit true tip w).g.score =
        w.g.score + 50 + ((min (5 * (w.g.streak + 1)) 150 : ℕ) : ℤ) ∧
      w.g.score < (register_hit true tip w).g.score := by
  intro w tip
  refine ⟨register_hit_true_score tip w, ?_⟩
  rw [register_hit_true_score tip w]
  omega

/-- C3: every incorrect placement (`register_hit` with `correct=false`)
and every miss (`register_miss`) zeroes the streak and decrements lives
by exactly 1, and the state becomes GAMEOVER within the same event
exactly when the decremented lives are ≤ 0; with one life left, a single
wrong drop (a dragged Battery released on the Paper bin) gives lives 0
and state GAMEOVER. -/
theorem wrong_drop_and_miss_spec :
    (∀ (w : World) (reason tip : String),
      (register_miss reason w).g.streak = 0 ∧
      (register_miss reason w).g.lives = w.g.lives - 1 ∧
      (register_miss reason w).g.state =
        (if w.g.lives - 1 ≤ 0 then GState.GAMEOVER else w.g.state) ∧
      (register_hit false tip w).g.streak = 0 ∧
      (register_hit false tip w).g.lives = w.g.lives - 1 ∧
      (register_hit false tip w).g.state =
        (if w.g.lives - 1 ≤ 0 then GState.GAMEOVER else w.g.state)) ∧
    (handle_mouse_up (0, 0) oneLifeWorld).g.lives = 0 ∧
    (handle_mouse_up (0, 0) oneLifeWorld).g.state = GState.GAMEOVER := by
  exact ⟨fun w reason tip =>
    ⟨register_miss_streak reason w, register_miss_lives reason w,
     register_miss_state reason w, register_hit_false_streak tip w,
     register_hit_false_lives tip w, register_hit_false_state tip w⟩,
    by decide, by decide⟩

/-- C4: on pointer-release with a dragged object, the bins are tested in
the fixed `bins` order and the first one with non-zero overlap wins
(`find?`); if one intersects, the object leaves the active set and the
outcome is correct (streak up, score up, lives kept) exactly when its
category equals the bin label, otherwise lives drop by 1 and streak
resets; if none intersects, the object stays in the active set
un-dragged with all other fields unchanged, and score, streak, lives and
the store are untouched. -/
theorem drop_resolution_spec (w : World) (pos : ℤ × ℤ) (d : Item)
    (hplay : w.g.state = GState.PLAYING)
    (hfind : w.g.items.find? (fun it => it.dragging) = some d) :
    (∀ b : Bin,
      bins.find? (fun b2 => b2.rect.colliderect (Item.rect { d with dragging := false })) =
          some b →
      ((handle_mouse_up pos w).g.items =
          (undragFirst w.g.items).erase { d with dragging := false } ∧
        (d.category = b.label →
          (handle_mouse_up pos w).g.score =
            w.g.score + 50 + ((min (5 * (w.g.streak + 1)) 150 : ℕ) : ℤ) ∧
          (handle_mouse_up pos w).g.streak = w.g.streak + 1 ∧
          (handle_mouse_up pos w).g.lives = w.g.lives) ∧
        (d.category ≠ b.label →
          (handle_mouse_up pos w).g.score = w.g.score ∧
          (handle_mouse_up pos w).g.streak = 0 ∧
          (handle_mouse_up pos w).g.lives = w.g.lives - 1))) ∧
    (bins.find? (fun b2 => b2.rect.colliderect (Item.rect { d with dragging := false })) =
        none →
      (handle_mouse_up pos w).g.items = undragFirst w.g.items ∧
      { d with dragging := false } ∈ (handle_mouse_up pos w).g.items ∧
      (handle_mouse_up pos w).g.score = w.g.score ∧
      (handle_mouse_up pos w).g.streak = w.g.streak ∧
      (handle_mouse_up pos w).g.lives = w.g.lives ∧
      (handle_mouse_up pos w).store = w.store) := by
  constructor
  · intro b hb
    have hup : handle_mouse_up pos w =
        register_hit (d.category == b.label)
          (if d.category == b.label then "OK " ++ d.name ++ ": " ++ d.tip
           else "X " ++ d.name ++ " goes in " ++ d.category ++ " bin.")
          { w with g := { w.g with
              items := (undragFirst w.g.items).erase { d with dragging := false } } } := by
      simp only [handle_mouse_up, hplay, hfind, hb, if_true]
    refine ⟨?_, ?_, ?_⟩
    · rw [hup, register_hit_items]
    · intro hcat
      have hbeq : (d.category == b.label) = true := beq_iff_eq.mpr hcat
      rw [hup, hbeq]
      exact ⟨register_hit_true_score _ _, register_hit_true_streak _ _,
        register_hit_true_lives _ _⟩
    · intro hcat
      have hbeq : (d.category == b.label) = false := beq_eq_false_iff_ne.mpr hcat
      rw [hup, hbeq]
      exact ⟨register_hit_false_score _ _, register_hit_false_streak _ _,
        register_hit_false_lives _ _⟩
  · intro hb
    have hup : handle_mouse_up pos w =
        { w with g := { w.g with items := undragFirst w.g.items } } := by
      simp only [handle_mouse_up, hplay, hfind, hb, if_true]
    refine ⟨by rw [hup], ?_, by rw [hup], by rw [hup], by rw [hup], by rw [hup]⟩
    rw [hup]
    exact mem_undragFirst_of_find? w.g.items d hfind

/-- C4 witness: the dragged Battery released over the E-Waste bin is
removed and scores as a correct drop. -/
theorem drop_resolution_spec_witness :
    (handle_mouse_up (900, 560) batteryWorld).g.streak = batteryWorld.g.streak + 1 :=
  (((drop_resolution_spec batteryWorld (900, 560) batteryItem rfl (by decide)).1
      ewasteBin (by decide)).2.1 (by decide)).2.1

lemma missScan_preserves (fall : ℚ) :
    ∀ (l : List Item) (w : World),
      (missScan fall l w).2.g.score = w.g.score ∧
      (missScan fall l w).2.g.level = w.g.level ∧
      (missScan fall l w).2.g.level_target = w.g.level_target ∧
      (missScan fall l w).2.g.level_time_left = w.g.level_time_left := by
  intro l
  induction l with
  | nil => intro w; exact ⟨rfl, rfl, rfl, rfl⟩
  | cons it rest ih =>
    intro w
    simp only [missScan]
    split
    · obtain ⟨h1, h2, h3, h4⟩ := ih (register_miss "Item fell off screen" w)
      exact ⟨h1.trans (register_miss_score _ w), h2.trans (register_miss_level _ w),
        h3.trans (register_miss_level_target _ w),
        h4.trans (register_miss_level_time_left _ w)⟩
    · exact ih w

lemma tipStep_score (dt : ℚ) (g : Game) : (tipStep dt g).score = g.score := by
  simp only [tipStep]
  split
  · split <;> rfl
  · rfl

lemma tipStep_level (dt : ℚ) (g : Game) : (tipStep dt g).level = g.level := by
  simp only [tipStep]
  split
  · split <;> rfl
  · rfl

lemma tipStep_level_target (dt : ℚ) (g : Game) :
    (tipStep dt g).level_target = g.level_target := by
  simp only [tipStep]
  split
  · split <;> rfl
  · rfl

lemma tipStep_level_time_left (dt : ℚ) (g : Game) :
    (tipStep dt g).level_time_left = g.level_time_left := by
  simp only [tipStep]
  split
  · split <;> rfl
  · rfl

/-- While PLAYING, `update` is `levelStep` applied after steps that do
not change score, level, target or the level clock. -/
lemma update_playing (w : World) (dt : ℚ) (sp : SpawnData)
    (hplay : w.g.state = GState.PLAYING) :
    ∃ w3 : World, update dt sp w = levelStep dt w3 ∧
      w3.g.score = w.g.score ∧ w3.g.level = w.g.level ∧
      w3.g.level_target = w.g.level_target ∧
      w3.g.level_time_left = w.g.level_time_left := by
  unfold update
  rw [if_pos hplay]
  refine ⟨_, rfl, ?_, ?_, ?_, ?_⟩
  · rw [tipStep_score]
    show (missScan _ _ _).2.g.score = _
    rw [(missScan_preserves _ _ _).1]
    show (if _ then spawn_item sp _ else _).score = _
    split <;> rfl
  · rw [tipStep_level]
    show (missScan _ _ _).2.g.level = _
    rw [(missScan_preserves _ _ _).2.1]
    show (if _ then spawn_item sp _ else _).level = _
    split <;> rfl
  · rw [tipStep_level_target]
    show (missScan _ _ _).2.g.level_target = _
    rw [(missScan_preserves _ _ _).2.2.1]
    show (if _ then spawn_item sp _ else _).level_target = _
    split <;> rfl
  · rw [tipStep_level_time_left]
    show (missScan _ _ _).2.g.level_time_left = _
    rw [(missScan_preserves _ _ _).2.2.2]
    show (if _ then spawn_item sp _ else _).level_time_left = _
    split <;> rfl

lemma levelStep_expired (dt : ℚ) (w3 : World)
    (h : w3.g.level_time_left - dt ≤ 0) :
    ((w3.g.score ≥ w3.g.level_target ∧ w3.g.level < LEVELS.length - 1) →
      (levelStep dt w3).g.level = w3.g.level + 1 ∧
      (levelStep dt w3).g.level_time_left =
        (LEVELS.getD (w3.g.level + 1) defaultLevel).level_secs ∧
      (levelStep dt w3).g.level_target =
        (LEVELS.getD (w3.g.level + 1) defaultLevel).target) ∧
    (¬ (w3.g.score ≥ w3.g.level_target ∧ w3.g.level < LEVELS.length - 1) →
      (levelStep dt w3).g.state = GState.GAMEOVER) := by
  constructor
  · intro hc
    simp only [levelStep]
    rw [if_pos h, if_pos hc]
    exact ⟨rfl, rfl, rfl⟩
  · intro hc
    simp only [levelStep]
    rw [if_pos h, if_neg hc]
    exact game_over_state _

/-- C5: on a PLAYING tick whose `dt` brings `level_time_left` to ≤ 0,
if `score ≥ score_target` (meeting the target exactly suffices) and a
next level exists, `level` advances by exactly 1 and the clock and
target are reloaded from the new `LEVELS` entry; otherwise the state
becomes GAMEOVER at that same tick. -/
theorem level_timer_spec (w : World) (dt : ℚ) (sp : SpawnData)
    (hplay : w.g.state = GState.PLAYING)
    (hexp : w.g.level_time_left - dt ≤ 0) :
    ((w.g.score ≥ w.g.level_target ∧ w.g.level < LEVELS.length - 1) →
      (update dt sp w).g.level = w.g.level + 1 ∧
      (update dt sp w).g.level_time_left =
        (LEVELS.getD (w.g.level + 1) defaultLevel).level_secs ∧
      (update dt sp w).g.level_target =
        (LEVELS.getD (w.g.level + 1) defaultLevel).target) ∧
    (¬ (w.g.score ≥ w.g.level_target ∧ w.g.level < LEVELS.length - 1) →
      (update dt sp w).g.state = GState.GAMEOVER) := by
  obtain ⟨w3, heq, hsc, hlv, htg, htl⟩ := update_playing w dt sp hplay
  have hexp3 : w3.g.level_time_left - dt ≤ 0 := by rw [htl]; exact hexp
  obtain ⟨hadv, hover⟩ := levelStep_expired dt w3 hexp3
  rw [heq]
  constructor
  · intro hc
    have hc3 : w3.g.score ≥ w3.g.level_target ∧ w3.g.level < LEVELS.length - 1 := by
      rw [hsc, htg, hlv]; exact hc
    obtain ⟨a1, a2, a3⟩ := hadv hc3
    rw [hlv] at a1 a2 a3
    exact ⟨a1, a2, a3⟩
  · intro hc
    refine hover ?_
    rw [hsc, htg, hlv]
    exact hc

/-- C5 witness: a fresh level-0 session whose score sits exactly at the
target 200 advances to level 1 (clock 55, target 450) when the clock
expires. -/
theorem level_timer_spec_witness :
    (update 50 spawnCan levelExactWorld).g.level = levelExactWorld.g.level + 1 ∧
    (update 50 spawnCan levelExactWorld).g.level_time_left =
      (LEVELS.getD (levelExactWorld.g.level + 1) defaultLevel).level_secs ∧
    (update 50 spawnCan levelExactWorld).g.level_target =
      (LEVELS.getD (levelExactWorld.g.level + 1) defaultLevel).target :=
  (level_timer_spec levelExactWorld 50 spawnCan rfl (by norm_num [levelExactWorld, reset,
    LEVELS, defaultLevel])).1 (by decide)

/-- C6 counterexample: grabbing the falling bottle (`vy = 3/2`) and
releasing it away from every bin, with no pointer-motion event in
between, leaves it un-dragged but still carrying its pre-grab velocity
`vy = 3/2` — the code zeroes velocity only in the motion handler, so
"on release the object does not retain the velocity it had before being
grabbed" fails for a motionless drag. -/
theorem drag_release_keeps_velocity :
    ((handle_mouse_up (510, 110) (handle_mouse_down (510, 110) bottleWorld)).g.items.map
        (fun it => it.vy) = [3 / 2]) ∧
    ((handle_mouse_up (510, 110) (handle_mouse_down (510, 110) bottleWorld)).g.items.map
        (fun it => it.dragging) = [false]) ∧
    ¬ (3 / 2 : ℚ) = 0 := by
  exact ⟨by rfl, by rfl, by norm_num⟩

/-- C6 amended: while an object is dragged the per-tick kinematics are
suspended entirely (`Item.update` is the identity: no gravity, position,
rotation or velocity change), and every pointer-motion event snaps each
dragged object to the pointer position plus its captured grab offset
with velocity forced to zero; a drag that sees no motion event keeps its
pre-grab velocity until release. -/
theorem drag_suspends_kinematics :
    (∀ (gravity : ℚ) (it : Item), it.dragging = true → it.update gravity = it) ∧
    (∀ (w : World) (mx my : ℤ), w.g.state = GState.PLAYING →
      ∀ it2 ∈ (handle_mouse_motion (mx, my) w).g.items, it2.dragging = true →
        it2.x = (mx : ℚ) + it2.grabbed_dx ∧ it2.y = (my : ℚ) + it2.grabbed_dy ∧
        it2.vx = 0 ∧ it2.vy = 0) := by
  constructor
  · intro gravity it h
    simp [Item.update, h]
  · intro w mx my hplay it2 hmem hd
    simp only [handle_mouse_motion, hplay, if_true] at hmem
    rw [List.mem_map] at hmem
    obtain ⟨it0, _, heq⟩ := hmem
    by_cases h0 : it0.dragging
    · rw [if_pos h0] at heq
      cases heq
      exact ⟨rfl, rfl, rfl, rfl⟩
    · rw [if_neg h0] at heq
      cases heq
      exact absurd hd h0

/-- The GAMEOVER screen of the session that banked high score 7, about
to be restarted with the R key. -/
def restartWorld : World :=
  { g := { reset true (some 7) false with state := GState.GAMEOVER, score := 120 },
    store := some 7 }

/-- C7: the R-key restart from GAMEOVER zeroes score and streak, refills
lives to `LIVES_START`, returns to level 0, empties the active object
list and enters PLAYING, while the persisted high-score store is left
untouched (the in-memory high score is re-read from it). -/
theorem restart_spec (w : World) (h : w.g.state = GState.GAMEOVER) :
    (stepEv Ev.keyR w).g.score = 0 ∧
    (stepEv Ev.keyR w).g.lives = LIVES_START ∧
    (stepEv Ev.keyR w).g.streak = 0 ∧
    (stepEv Ev.keyR w).g.level = 0 ∧
    (stepEv Ev.keyR w).g.items = [] ∧
    (stepEv Ev.keyR w).g.state = GState.PLAYING ∧
    (stepEv Ev.keyR w).store = w.store ∧
    (stepEv Ev.keyR w).g.hiscore = load_hiscore w.store := by
  simp [stepEv, h, reset]

/-- C7 witness: restarting `restartWorld` resets the round and keeps the
stored high score 7. -/
theorem restart_spec_witness :
    (stepEv Ev.keyR restartWorld).g.score = 0 ∧
    (stepEv Ev.keyR restartWorld).g.lives = LIVES_START ∧
    (stepEv Ev.keyR restartWorld).g.streak = 0 ∧
    (stepEv Ev.keyR restartWorld).g.level = 0 ∧
    (stepEv Ev.keyR restartWorld).g.items = [] ∧
    (stepEv Ev.keyR restartWorld).g.state = GState.PLAYING ∧
    (stepEv Ev.keyR restartWorld).store = restartWorld.store ∧
    (stepEv Ev.keyR restartWorld).g.hiscore = load_hiscore restartWorld.store :=
  restart_spec restartWorld rfl

/-- A PLAYING session that loaded stored high score 10 and has since
scored 20. -/
def hiWorld : World :=
  { g := { reset true (some 10) false with score := 20, state := GState.PLAYING },
    store := some 10 }

/-- C8: entering GAMEOVER persists the score as the new high score (a
single scalar write, also mirrored in memory) precisely when it strictly
exceeds the stored high score, and otherwise changes neither the store
nor the in-memory value; an absent/corrupt store reads as 0. -/
theorem gameover_hiscore_spec (w : World) (h : load_hiscore w.store = w.g.hiscore) :
    (game_over w).g.state = GState.GAMEOVER ∧
    (game_over w).store =
      (if load_hiscore w.store < w.g.score then some w.g.score else w.store) ∧
    (game_over w).g.hiscore =
      (if load_hiscore w.store < w.g.score then w.g.score else w.g.hiscore) ∧
    (game_over w).g.score = w.g.score ∧
    load_hiscore none = 0 := by
  rw [h]
  refine ⟨game_over_state w, ?_, ?_, game_over_score w, rfl⟩
  · unfold game_over
    split <;> rfl
  · unfold game_over
    split <;> rfl

/-- C8 witness: with stored high score 10 and round score 20, GAMEOVER
writes 20 to the store and to memory. -/
theorem gameover_hiscore_spec_witness :
    (game_over hiWorld).g.state = GState.GAMEOVER ∧
    (game_over hiWorld).store =
      (if load_hiscore hiWorld.store < hiWorld.g.score then some hiWorld.g.score
       else hiWorld.store) ∧
    (game_over hiWorld).g.hiscore =
      (if load_hiscore hiWorld.store < hiWorld.g.score then hiWorld.g.score
       else hiWorld.g.hiscore) ∧
    (game_over hiWorld).g.score = hiWorld.g.score ∧
    load_hiscore none = 0 :=
  gameover_hiscore_spec hiWorld rfl

/-- A metal can already below the bottom of the screen. -/
def fallenCan (nm : String) : Item :=
  { name := nm, category := "Metal", tip := "Rinse before recycling.",
    x := 100, y := 800, vx := 0, vy := 0, color := C_METAL }

/-- One life left with two items below the bottom threshold at once. -/
def overloadWorld : World :=
  { g := { reset true none false with
           state := GState.PLAYING
           lives := 1
           items := [fallenCan "Can", fallenCan "Tin Can"] }
    store := none }

/-- C10: the per-tick scan removes every item past the bottom threshold
(`y > SCREEN_H + 60` after its kinematics step) and decrements lives
once per such item, without stopping when the state turns GAMEOVER
mid-scan: after the scan, lives have dropped by exactly the number of
fallen items and the survivors are exactly the updated items at or above
the threshold.  Concretely, two fallen items with one life left end the
tick at lives = -1 (and state GAMEOVER), so lives is not bounded below
by 0. -/
theorem bottom_scan_unbounded_lives :
    (∀ (fall : ℚ) (l : List Item) (w : World),
      (missScan fall l w).2.g.lives =
        w.g.lives -
          (l.countP (fun it => decide (((SCREEN_H : ℚ) + 60) < (it.update fall).y)) : ℤ) ∧
      (missScan fall l w).1 =
        (l.map (fun it => it.update fall)).filter
          (fun it => decide (it.y ≤ (SCREEN_H : ℚ) + 60))) ∧
    (update 1 spawnCan overloadWorld).g.lives = -1 ∧
    (update 1 spawnCan overloadWorld).g.state = GState.GAMEOVER := by
  refine ⟨fun fall l => ?_, by decide, by decide⟩
  induction l with
  | nil =>
    intro w
    constructor
    · simp [missScan]
    · simp [missScan]
  | cons it rest ih =>
    intro w
    simp only [missScan]
    split
    · next hfall =>
      constructor
      · rw [(ih (register_miss "Item fell off screen" w)).1, register_miss_lives]
        simp [List.countP_cons, hfall]
        omega
      · rw [(ih (register_miss "Item fell off screen" w)).2, List.map_cons,
          List.filter_cons_of_neg (by simpa using not_le.mpr hfall)]
    · next hfall =>
      constructor
      · show (missScan fall rest w).2.g.lives = _
        rw [(ih w).1]
        simp [List.countP_cons, hfall]
      · show it.update fall :: (missScan fall rest w).1 = _
        rw [(ih w).2, List.map_cons,
          List.filter_cons_of_pos (by simpa using not_lt.mp hfall)]

/-- A session transcript: start, 75 zero-`dt` frames until a Can spawns,
75 more until a Phone spawns, then two pointer-downs — one on each
item — with no pointer-up in between. -/
def cexEvs : List Ev :=
  [Ev.keyStart] ++ List.replicate 75 (Ev.tick 0 spawnCan) ++
    List.replicate 75 (Ev.tick 0 spawnPhone) ++
    [Ev.down (510, 140), Ev.down (210, -20)]

/-- The state that transcript reaches. -/
def cexWorld : World :=
  runEvents cexEvs (initWorld none)

lemma reach_runEvents : ∀ (es : List Ev) (w : World), Reach w → Reach (runEvents es w) := by
  intro es
  induction es with
  | nil => intro w h; exact h
  | cons e es ih => intro w h; exact ih (stepEv e w) (Reach.step e h)

set_option maxRecDepth 100000 in
/-- C9 counterexample: under unrestricted event sequences the
"at most one dragging object" invariant fails — a second pointer-down
while the Can is already dragged also grabs the Phone, reaching a state
with two dragging items (`handle_mouse_down` never checks whether some
other object is already being dragged). -/
theorem two_drags_reachable :
    Reach cexWorld ∧ 1 < dragCount cexWorld.g :=
  ⟨reach_runEvents cexEvs (initWorld none) (Reach.init none), by decide⟩

/-! ### The single-drag invariant under single-pointer input -/

/-- States reachable when every pointer-down arrives while no object is
being dragged (the discipline a single mouse button imposes: down and
up alternate). -/
inductive ReachOne : World → Prop
  | init (store : Option ℤ) : ReachOne (initWorld store)
  | tick (dt : ℚ) (sp : SpawnData) {w : World} :
      ReachOne w → ReachOne (stepEv (Ev.tick dt sp) w)
  | down (pos : ℤ × ℤ) {w : World} :
      ReachOne w → dragCount w.g = 0 → ReachOne (stepEv (Ev.down pos) w)
  | up (pos : ℤ × ℤ) {w : World} : ReachOne w → ReachOne (stepEv (Ev.up pos) w)
  | motion (pos : ℤ × ℤ) {w : World} :
      ReachOne w → ReachOne (stepEv (Ev.motion pos) w)
  | keyStart {w : World} : ReachOne w → ReachOne (stepEv Ev.keyStart w)
  | keyP {w : World} : ReachOne w → ReachOne (stepEv Ev.keyP w)
  | keyM {w : World} : ReachOne w → ReachOne (stepEv Ev.keyM w)
  | keyR {w : World} : ReachOne w → ReachOne (stepEv Ev.keyR w)

lemma Item.update_dragging (it : Item) (fall : ℚ) :
    (it.update fall).dragging = it.dragging := by
  simp only [Item.update]
  split <;> rfl

lemma missScan_countP_le (fall : ℚ) :
    ∀ (l : List Item) (w : World),
      (missScan fall l w).1.countP (fun it => it.dragging) ≤
        l.countP (fun it => it.dragging) := by
  intro l
  induction l with
  | nil => intro w; exact Nat.le_refl _
  | cons it rest ih =>
    intro w
    simp only [missScan]
    split
    · refine Nat.le_trans (ih (register_miss "Item fell off screen" w)) ?_
      simp [List.countP_cons]
    · show ((it.update fall) :: (missScan fall rest w).1).countP _ ≤ _
      simp only [List.countP_cons, Item.update_dragging]
      have := ih w
      omega

lemma grabAt_countP_le (px py : ℤ) :
    ∀ l : List Item,
      (grabAt px py l).countP (fun it => it.dragging) ≤
        l.countP (fun it => it.dragging) + 1 := by
  intro l
  induction l with
  | nil => simp [grabAt]
  | cons it rest ih =>
    simp only [grabAt]
    split
    · simp [List.countP_cons]
    · simp only [List.countP_cons]
      omega

lemma undragFirst_countP_le :
    ∀ l : List Item,
      (undragFirst l).countP (fun it => it.dragging) ≤
        l.countP (fun it => it.dragging) := by
  intro l
  induction l with
  | nil => exact Nat.le_refl _
  | cons it rest ih =>
    simp only [undragFirst]
    split
    · simp [List.countP_cons]
    · simp only [List.countP_cons]
      omega

lemma tipStep_items (dt : ℚ) (g : Game) : (tipStep dt g).items = g.items := by
  simp only [tipStep]
  split
  · split <;> rfl
  · rfl

lemma levelStep_items (dt : ℚ) (w : World) : (levelStep dt w).g.items = w.g.items := by
  simp only [levelStep]
  split
  · split
    · rfl
    · rw [game_over_items]
  · rfl

lemma dragCount_update_le (dt : ℚ) (sp : SpawnData) (w : World) :
    dragCount (update dt sp w).g ≤ dragCount w.g := by
  unfold update
  split
  · simp only [dragCount, levelStep_items, tipStep_items]
    refine Nat.le_trans (missScan_countP_le _ _ _) ?_
    split
    · simp [spawn_item, List.countP_append]
    · exact Nat.le_refl _
  · exact Nat.le_refl _

lemma dragCount_down_le (pos : ℤ × ℤ) (w : World) :
    dragCount (handle_mouse_down pos w).g ≤ dragCount w.g + 1 := by
  unfold handle_mouse_down
  split
  · simp only [dragCount, List.countP_reverse]
    refine Nat.le_trans (grabAt_countP_le _ _ _) ?_
    rw [List.countP_reverse]
  · exact Nat.le_succ_of_le (Nat.le_refl _)

lemma dragCount_up_le (pos : ℤ × ℤ) (w : World) :
    dragCount (handle_mouse_up pos w).g ≤ dragCount w.g := by
  unfold handle_mouse_up
  split
  · cases hfind : w.g.items.find? (fun it => it.dragging) with
    | none =>
      simp only [hfind]
      exact Nat.le_refl _
    | some d =>
      simp only [hfind]
      cases hbin : bins.find?
          (fun b => b.rect.colliderect (Item.rect { d with dragging := false })) with
      | none =>
        simp only [hbin]
        exact undragFirst_countP_le w.g.items
      | some b =>
        simp only [hbin]
        simp only [dragCount, register_hit_items]
        refine Nat.le_trans (List.Sublist.countP_le _ (List.erase_sublist _ _)) ?_
        exact undragFirst_countP_le w.g.items
  · exact Nat.le_refl _

lemma dragCount_motion_eq (pos : ℤ × ℤ) (w : World) :
    dragCount (handle_mouse_motion pos w).g = dragCount w.g := by
  unfold handle_mouse_motion
  split
  · simp only [dragCount, List.countP_map]
    refine List.countP_congr ?_
    intro it _
    by_cases h : it.dragging <;> simp [h]
  · rfl

/-- C9 amended: with single-pointer input (each pointer-down arrives
while nothing is dragged, as one mouse button guarantees), every
reachable state has at most one dragging object: a grab flags at most
one item and a release, tick or motion never increases the number of
dragged items.  Without that discipline a second pointer-down during a
drag can flag a second object. -/
theorem single_drag_invariant : ∀ w : World, ReachOne w → dragCount w.g ≤ 1 := by
  intro w h
  induction h with
  | init store => simp [dragCount, initWorld, reset]
  | tick dt sp _ ih => exact Nat.le_trans (dragCount_update_le dt sp _) ih
  | down pos _ hzero _ =>
    refine Nat.le_trans (dragCount_down_le pos _) ?_
    omega
  | up pos _ ih => exact Nat.le_trans (dragCount_up_le pos _) ih
  | motion pos _ ih => exact Nat.le_trans (Nat.le_of_eq (dragCount_motion_eq pos _)) ih
  | keyStart _ ih =>
    simp only [stepEv]
    split
    · exact ih
    · exact ih
  | keyP _ ih =>
    simp only [stepEv]
    split
    · exact ih
    · split
      · exact ih
      · exact ih
  | keyM _ ih => exact ih
  | keyR _ ih =>
    simp only [stepEv]
    split
    · simp [dragCount, reset]
    · exact ih

/-- C9 witness: the invariant holds at the fresh session. -/
theorem single_drag_invariant_witness : dragCount (initWorld none).g ≤ 1 :=
  single_drag_invariant (initWorld none) (ReachOne.init none)

end RecyclingSorter
